import Mathlib

/-!
Shallow embedding of the token-lifecycle core of `src/app.py` (class
`APIClient`): the persistent token cache (`_load_token` / `_save_token` /
`_delete_token`), the login exchange (`_authenticate`), header injection
(`_update_headers`), the constructor (`__init__`) and the generic
`get` with its one-shot 401 refresh-and-retry policy.

Modelling conventions:
* The filesystem state at `TOKEN_FILE` is a `CacheFile`: absent,
  unreadable (present but `json.load` / `.get` raises), or a parsed JSON
  object whose optional `"token"` field is a string.  The store only ever
  writes string tokens, so token values are modelled as `String`.
* The network is a scripted oracle `Env`: one list of transport results
  for the login endpoint and one for the data endpoint, consumed in
  order.  An exhausted script behaves as a transport failure; every
  theorem below supplies explicit scripts long enough for the run.
* `requests` exceptions are values: `TResult.exn` is a transport-level
  `RequestException`; `raise_for_status` raises exactly for statuses in
  400..599.  `AuthErr` distinguishes the `RequestException`s from the
  plain `Exception("Token not found")`, because `get` catches only the
  former.
* Each operation returns its result together with the state it leaves
  behind, the remaining oracle, and counters of login / data dispatches
  (plus the error log records `get` emits), so call counts are provable.
-/

/-- Minimal JSON values, enough for response bodies. -/
inductive Json where
  | null
  | bool (b : Bool)
  | num (n : Int)
  | str (s : String)
  | arr (elems : List Json)
  | obj (fields : List (String × Json))

/-- Field lookup on JSON objects: Python `dict.get(key)` returning `None`
when absent; non-objects have no fields. -/
def lookupField : List (String × Json) → String → Option Json
  | [], _ => none
  | (k, v) :: rest, key => if k = key then some v else lookupField rest key

def Json.getField : Json → String → Option Json
  | .obj fields, key => lookupField fields key
  | _, _ => none

/-- State of the file at `TOKEN_FILE`. -/
inductive CacheFile where
  | absent
  | unreadable
  | record (token : Option String)

/-- `APIClient._load_token`: returns the `"token"` field if the file
exists and parses; any read/parse exception is swallowed and yields
`none`.  The file is opened read-only and never modified. -/
def _load_token : CacheFile → Option String
  | .absent => none
  | .unreadable => none
  | .record t => t

/-- `APIClient._save_token`: overwrites `TOKEN_FILE` with
`{"token": token}` (write errors are swallowed; the success path is
modelled). -/
def _save_token (token : String) (_f : CacheFile) : CacheFile :=
  .record (some token)

/-- `APIClient._delete_token`: `os.remove` if the file exists, no-op
otherwise; either way the file is gone afterwards. -/
def _delete_token : CacheFile → CacheFile :=
  fun _ => .absent

/-- One transport-level result of an HTTP call: either a
`requests.RequestException` raised by the transport, or a response with a
status code and an already-parsed JSON body. -/
inductive TResult where
  | exn
  | resp (status : Nat) (body : Json)

/-- Scripted network: responses for the login endpoint and for the data
endpoint, consumed in order. -/
structure Env where
  login : List TResult
  data : List TResult

/-- Consume the next scripted result; an exhausted script acts as a
transport failure. -/
def pop : List TResult → TResult × List TResult
  | [] => (.exn, [])
  | r :: rest => (r, rest)

/-- `Response.raise_for_status` raises `HTTPError` exactly for
4xx and 5xx statuses. -/
def raisesForStatus (status : Nat) : Bool :=
  decide (400 ≤ status) && decide (status < 600)

/-- How `_authenticate` fails.  `transport` and `httpStatus` are
`requests.RequestException`s (logged and re-raised); `tokenNotFound` is
the plain `Exception("Token not found")`. -/
inductive AuthErr where
  | transport
  | httpStatus (status : Nat)
  | tokenNotFound

def AuthErr.isRequestException : AuthErr → Bool
  | .transport => true
  | .httpStatus _ => true
  | .tokenNotFound => false

/-- Outcome of `_authenticate`: the raised-or-returned result, the cache
file it leaves behind, the remaining oracle and the number of login
dispatches made. -/
structure AuthOut where
  result : Except AuthErr String
  file : CacheFile
  env : Env
  loginCalls : Nat

/-- `APIClient._authenticate`: POST the login endpoint once (after an
unconditional sleep, irrelevant here).  On transport failure or an error
status the `RequestException` is logged and re-raised; on success the
`"key"` field of the body is the token: if truthy it is saved to the
cache and returned, otherwise a plain `Exception` is raised.  Token
values are modelled as strings (the store never holds anything else). -/
def _authenticate (file : CacheFile) (env : Env) : AuthOut :=
  let p := pop env.login
  let env' : Env := { env with login := p.2 }
  match p.1 with
  | .exn => ⟨.error .transport, file, env', 1⟩
  | .resp status body =>
    if raisesForStatus status then
      ⟨.error (.httpStatus status), file, env', 1⟩
    else
      match body.getField "key" with
      | some (Json.str s) =>
        if s.isEmpty then ⟨.error .tokenNotFound, file, env', 1⟩
        else ⟨.ok s, _save_token s file, env', 1⟩
      | _ => ⟨.error .tokenNotFound, file, env', 1⟩

/-- In-memory session state owned by the client: `self.token`, the cache
file on disk, and the `Authorization` header currently set on the
session. -/
structure ClientState where
  token : Option String
  file : CacheFile
  authHeader : Option String

/-- `APIClient._update_headers`: sets `Authorization: Token {self.token}`
(Python string interpolation renders a missing token as `"None"`). -/
def _update_headers (st : ClientState) : ClientState :=
  { st with authHeader := some ("Token " ++ (match st.token with
      | some s => s
      | none => "None")) }

/-- Error records logged by `get`'s exception handler: the transport
failure, the `HTTPError` from `raise_for_status` (which carries the
response's status and body), or a re-raised authentication
`RequestException`. -/
inductive LogEntry where
  | getTransportError
  | getHttpError (status : Nat) (body : Json)
  | getAuthError (e : AuthErr)

/-- Outcome of `get`: `Except.error` is an exception propagating to the
caller uncaught, `Except.ok none` is the `return None` failure result,
`Except.ok (some body)` is the parsed success body. -/
structure GetOut where
  result : Except AuthErr (Option Json)
  st : ClientState
  env : Env
  loginCalls : Nat
  dataCalls : Nat
  logs : List LogEntry

/-- The body of `APIClient.get`, with the recursive call site abstracted
as the continuation `k` (the source calls `self.get(endpoint, params,
retry=False)` there).  Mirrors the source line by line: update headers,
dispatch; on 401 with `retry` true delete the cached token, authenticate
(a `RequestException` from it is caught by the same handler and yields
`None`; the plain token-not-found exception propagates), store the new
token, re-inject the header and invoke the continuation; otherwise
`raise_for_status` then return the JSON body; any `RequestException`
is logged and `None` is returned. -/
def getBody (k : ClientState → Env → GetOut) (st0 : ClientState)
    (env0 : Env) (retry : Bool) : GetOut :=
  let st := _update_headers st0
  let p := pop env0.data
  let env : Env := { env0 with data := p.2 }
  match p.1 with
  | .exn => ⟨.ok none, st, env, 0, 1, [.getTransportError]⟩
  | .resp status body =>
    if status = 401 ∧ retry then
      let stDel : ClientState := { st with file := _delete_token st.file }
      let a := _authenticate stDel.file env
      match a.result with
      | .error e =>
        let stErr : ClientState := { stDel with file := a.file }
        if e.isRequestException then
          ⟨.ok none, stErr, a.env, a.loginCalls, 1, [.getAuthError e]⟩
        else
          ⟨.error e, stErr, a.env, a.loginCalls, 1, []⟩
      | .ok tok =>
        let st2 := _update_headers { stDel with token := some tok, file := a.file }
        let out := k st2 a.env
        ⟨out.result, out.st, out.env, a.loginCalls + out.loginCalls,
          1 + out.dataCalls, out.logs⟩
    else if raisesForStatus status then
      ⟨.ok none, st, env, 0, 1, [.getHttpError status body]⟩
    else
      ⟨.ok (some body), st, env, 0, 1, []⟩

/-- `APIClient.get`: the retried call runs with `retry = False`, whose
own refresh branch is unreachable (its continuation is dead code), so
the recursion is bounded at depth two by the flag. -/
def APIClient.get (st : ClientState) (env : Env) (retry : Bool) : GetOut :=
  getBody (fun s e =>
    getBody (fun s' e' => ⟨.ok none, s', e', 0, 0, []⟩) s e false) st env retry

/-- Outcome of constructing the client: the state (or the exception
`__init__` lets propagate), the cache file afterwards, the remaining
oracle and the number of login dispatches. -/
structure InitOut where
  result : Except AuthErr ClientState
  file : CacheFile
  env : Env
  loginCalls : Nat

/-- Python truthiness of `self.token` in `if not self.token`. -/
def tokenTruthy : Option String → Bool
  | none => false
  | some s => !s.isEmpty

/-- `APIClient.__init__`: load the cached token; if it is falsy (absent,
unreadable file, missing field or empty string), authenticate exactly
once, persisting the fresh token via `_authenticate`'s save. -/
def __init__ (file : CacheFile) (env : Env) : InitOut :=
  let tok := _load_token file
  if tokenTruthy tok then
    ⟨.ok { token := tok, file := file, authHeader := none }, file, env, 0⟩
  else
    let a := _authenticate file env
    match a.result with
    | .error e => ⟨.error e, a.file, a.env, 1⟩
    | .ok t =>
      ⟨.ok { token := some t, file := a.file, authHeader := none }, a.file, a.env, 1⟩

/-! Concrete inputs used by the witness theorems. -/

def tokBody : Json := Json.obj [("key", Json.str "tok-new")]

def emptyBody : Json := Json.obj []

def dataOk : Json := Json.obj [("results", Json.arr []), ("count", Json.num 0)]

def stOld : ClientState :=
  { token := some "tok-old", file := CacheFile.record (some "tok-old"),
    authHeader := none }

def envC1 : Env :=
  { login := [TResult.resp 200 tokBody],
    data := [TResult.resp 401 emptyBody, TResult.resp 401 emptyBody] }

def envC2 : Env :=
  { login := [TResult.resp 200 tokBody],
    data := [TResult.resp 401 emptyBody, TResult.resp 200 dataOk] }

def envLoginOk : Env := { login := [TResult.resp 200 tokBody], data := [] }

def envLogin400 : Env := { login := [TResult.resp 400 Json.null], data := [] }

def envExn : Env := { login := [], data := [TResult.exn] }

def env500 : Env := { login := [], data := [TResult.resp 500 emptyBody] }

def envC8 : Env :=
  { login := [TResult.resp 200 emptyBody], data := [TResult.resp 401 emptyBody] }

def envC9 : Env := { login := [TResult.exn], data := [TResult.resp 401 emptyBody] }

theorem auth_loginCalls (file : CacheFile) (env : Env) :
    (_authenticate file env).loginCalls = 1 := by
  obtain ⟨lg, dt⟩ := env
  cases lg with
  | nil => rfl
  | cons r rest =>
    cases r with
    | exn => rfl
    | resp s b =>
      simp only [_authenticate, pop]
      split
      · rfl
      · split
        · split <;> rfl
        · rfl

theorem auth_error_file (file : CacheFile) (env : Env) (e : AuthErr)
    (h : (_authenticate file env).result = .error e) :
    (_authenticate file env).file = file := by
  obtain ⟨lg, dt⟩ := env
  cases lg with
  | nil => rfl
  | cons r rest =>
    cases r with
    | exn => rfl
    | resp s b =>
      by_cases hs : raisesForStatus s = true
      · simp [_authenticate, pop, hs]
      · cases hk : Json.getField b "key" with
        | none => simp [_authenticate, pop, hs, hk]
        | some v =>
          cases v with
          | str t =>
            by_cases he : t.isEmpty = true
            · simp [_authenticate, pop, hs, hk, he]
            · simp [_authenticate, pop, hs, hk, he] at h
          | null => simp [_authenticate, pop, hs, hk]
          | bool b' => simp [_authenticate, pop, hs, hk]
          | num n => simp [_authenticate, pop, hs, hk]
          | arr xs => simp [_authenticate, pop, hs, hk]
          | obj fs => simp [_authenticate, pop, hs, hk]

theorem getBody_false_loginCalls (k : ClientState → Env → GetOut)
    (st : ClientState) (env : Env) :
    (getBody k st env false).loginCalls = 0 := by
  obtain ⟨lg, dt⟩ := env
  cases dt with
  | nil => rfl
  | cons r rest =>
    cases r with
    | exn => rfl
    | resp s b =>
      simp only [getBody, pop]
      rw [if_neg (by simp)]
      split <;> rfl

theorem auth_result_indep (f1 f2 : CacheFile) (env : Env) :
    (_authenticate f1 env).result = (_authenticate f2 env).result := by
  obtain ⟨lg, dt⟩ := env
  cases lg with
  | nil => rfl
  | cons r rest =>
    cases r with
    | exn => rfl
    | resp s b =>
      by_cases hs : raisesForStatus s = true
      · simp [_authenticate, pop, hs]
      · cases hk : Json.getField b "key" with
        | none => simp [_authenticate, pop, hs, hk]
        | some v =>
          cases v with
          | str t =>
            by_cases he : t.isEmpty = true <;>
              simp [_authenticate, pop, hs, hk, he]
          | null => simp [_authenticate, pop, hs, hk]
          | bool b' => simp [_authenticate, pop, hs, hk]
          | num n => simp [_authenticate, pop, hs, hk]
          | arr xs => simp [_authenticate, pop, hs, hk]
          | obj fs => simp [_authenticate, pop, hs, hk]

theorem auth_ok_file (f : CacheFile) (env : Env) (t : String)
    (h : (_authenticate f env).result = .ok t) :
    (_authenticate f env).file = CacheFile.record (some t) := by
  obtain ⟨lg, dt⟩ := env
  cases lg with
  | nil => simp [_authenticate, pop] at h
  | cons r rest =>
    cases r with
    | exn => simp [_authenticate, pop] at h
    | resp s b =>
      by_cases hs : raisesForStatus s = true
      · simp [_authenticate, pop, hs] at h
      · cases hk : Json.getField b "key" with
        | none => simp [_authenticate, pop, hs, hk] at h
        | some v =>
          cases v with
          | str t' =>
            by_cases he : t'.isEmpty = true
            · simp [_authenticate, pop, hs, hk, he] at h
            · simp [_authenticate, pop, hs, hk, he] at h ⊢
              simp [_save_token, h]
          | null => simp [_authenticate, pop, hs, hk] at h
          | bool b' => simp [_authenticate, pop, hs, hk] at h
          | num n => simp [_authenticate, pop, hs, hk] at h
          | arr xs => simp [_authenticate, pop, hs, hk] at h
          | obj fs => simp [_authenticate, pop, hs, hk] at h

/-- C5: a transport failure on the data dispatch, and any non-401 error
status, are terminal for the call, whatever the retry flag: no login
call is made, exactly one dispatch happens, the caller gets the `None`
failure result, and the logged error record for an error status carries
the response's status code and body. -/
theorem get_non401_failures_terminal (st : ClientState) (env : Env) (retry : Bool) :
    (∀ dRest, env.data = TResult.exn :: dRest →
      (APIClient.get st env retry).result = Except.ok none ∧
      (APIClient.get st env retry).dataCalls = 1 ∧
      (APIClient.get st env retry).loginCalls = 0 ∧
      (APIClient.get st env retry).logs = [LogEntry.getTransportError]) ∧
    (∀ s b dRest, env.data = TResult.resp s b :: dRest → s ≠ 401 →
      raisesForStatus s = true →
      (APIClient.get st env retry).result = Except.ok none ∧
      (APIClient.get st env retry).dataCalls = 1 ∧
      (APIClient.get st env retry).loginCalls = 0 ∧
      (APIClient.get st env retry).logs = [LogEntry.getHttpError s b]) := by
  constructor
  · intro dRest hd
    refine ⟨?_, ?_, ?_, ?_⟩ <;> simp [APIClient.get, getBody, pop, hd]
  · intro s b dRest hd hs hr
    refine ⟨?_, ?_, ?_, ?_⟩ <;> simp [APIClient.get, getBody, pop, hd, hs, hr]

/-- C8: if the first data dispatch returns 401 and the refresh login
response has a success status but a body without the `"key"` field, the
plain token-not-found exception raised by `_authenticate` is not a
`RequestException`, so `get` propagates it uncaught (an `Except.error`
outcome, nothing logged by `get`'s handler) instead of returning the
`None` failure result. -/
theorem get_refresh_missing_key_uncaught (st : ClientState) (env : Env)
    (b lb : Json) (ls : Nat) (dRest lRest : List TResult)
    (hd : env.data = TResult.resp 401 b :: dRest)
    (hl : env.login = TResult.resp ls lb :: lRest)
    (hls : raisesForStatus ls = false)
    (hk : lb.getField "key" = none) :
    (APIClient.get st env true).result = Except.error AuthErr.tokenNotFound ∧
    (APIClient.get st env true).logs = [] := by
  refine ⟨?_, ?_⟩ <;>
    simp [APIClient.get, getBody, pop, hd, hl, hls, hk, _authenticate, _delete_token,
      AuthErr.isRequestException]

/-- C9: in the 401 refresh path the cache file is deleted before the new
login attempt; if that attempt fails with a `RequestException`
(transport failure or error status), `get` returns the `None` failure
result with the persistent store left empty (`absent`) while the
in-memory token still holds its old, rejected value — the refresh is not
atomic across the two stores on error. -/
theorem get_refresh_auth_failure_not_atomic (st : ClientState) (env : Env)
    (b : Json) (dRest : List TResult)
    (hd : env.data = TResult.resp 401 b :: dRest) :
    (∀ lRest, env.login = TResult.exn :: lRest →
      (APIClient.get st env true).result = Except.ok none ∧
      (APIClient.get st env true).st.file = CacheFile.absent ∧
      (APIClient.get st env true).st.token = st.token ∧
      (APIClient.get st env true).logs = [LogEntry.getAuthError AuthErr.transport]) ∧
    (∀ ls lb lRest, env.login = TResult.resp ls lb :: lRest →
      raisesForStatus ls = true →
      (APIClient.get st env true).result = Except.ok none ∧
      (APIClient.get st env true).st.file = CacheFile.absent ∧
      (APIClient.get st env true).st.token = st.token) := by
  constructor
  · intro lRest hl
    refine ⟨?_, ?_, ?_, ?_⟩ <;>
      simp [APIClient.get, getBody, pop, hd, hl, _authenticate, _delete_token,
        _update_headers, AuthErr.isRequestException]
  · intro ls lb lRest hl hls
    refine ⟨?_, ?_, ?_⟩ <;>
      simp [APIClient.get, getBody, pop, hd, hl, hls, _authenticate, _delete_token,
        _update_headers, AuthErr.isRequestException]

/-- C2: first data dispatch 401 with retry allowed, refresh login
succeeds with a fresh key, retried dispatch succeeds: `get` deletes the
old cache record, stores the new token in the session state and the
cache file (the cached token is replaced), re-injects the
`Authorization` header with the new token, dispatches exactly once more
(two data calls, one login call in total) and returns the retried
response body. -/
theorem get_401_then_success_refreshes (st : ClientState) (env : Env)
    (b1 body : Json) (s2 : Nat) (k : String) (dRest lRest : List TResult)
    (hd : env.data = TResult.resp 401 b1 :: TResult.resp s2 body :: dRest)
    (hs2 : raisesForStatus s2 = false)
    (hl : env.login = TResult.resp 200 (Json.obj [("key", Json.str k)]) :: lRest)
    (hk : k ≠ "") :
    (APIClient.get st env true).result = Except.ok (some body) ∧
    (APIClient.get st env true).st.token = some k ∧
    (APIClient.get st env true).st.file = CacheFile.record (some k) ∧
    (APIClient.get st env true).st.authHeader = some ("Token " ++ k) ∧
    (APIClient.get st env true).loginCalls = 1 ∧
    (APIClient.get st env true).dataCalls = 2 := by
  have hke : k.isEmpty = false := by
    rw [Bool.eq_false_iff]
    exact fun h => hk ((String.isEmpty_iff k).mp h)
  have h200 : raisesForStatus 200 = false := by decide
  refine ⟨?_, ?_, ?_, ?_, ?_, ?_⟩ <;>
    simp [APIClient.get, getBody, pop, hd, hl, hs2, hke, h200, _authenticate,
      _save_token, _delete_token, _update_headers, Json.getField, lookupField]

/-- C6: saving a token and then loading returns that same token, for any
prior state of the cache file (no intervening corruption is modelled: the
write succeeds). -/
theorem save_load_roundtrip (f : CacheFile) (t : String) :
    _load_token (_save_token t f) = some t := rfl

/-- C7: deleting the token record and then loading returns `none`, and
`_delete_token` is idempotent — it is a total operation (never an error),
and a second consecutive call leaves the same absent state. -/
theorem delete_load_none_and_idempotent (f : CacheFile) :
    _load_token (_delete_token f) = none ∧
    _delete_token (_delete_token f) = _delete_token f :=
  ⟨rfl, rfl⟩

/-- C10: a cache file that parses as JSON but lacks a `"token"` field is
a cache-miss: `_load_token` returns `none` (and, being a read-only
operation — it is a pure function of the file — leaves the file as it
is), so construction performs exactly one login call. -/
theorem load_missing_token_field_is_miss (env : Env) :
    _load_token (CacheFile.record none) = none ∧
    (__init__ (CacheFile.record none) env).loginCalls = 1 := by
  refine ⟨rfl, ?_⟩
  unfold __init__
  rw [if_neg (by decide)]
  dsimp only
  split <;> rfl

/-- C4: whenever `_authenticate` fails — transport exception, error
status, or missing/falsy token field — it raises an error carrying the
underlying cause (`AuthErr` records the transport failure, the offending
status, or the token-not-found condition) and the cache file is left
exactly as it was; in particular a 400 login response fails with the
status-400 error and persists nothing. -/
theorem authenticate_failure_persists_nothing (file : CacheFile) (env : Env) :
    (∀ e, (_authenticate file env).result = .error e →
      (_authenticate file env).file = file) ∧
    (∀ b lRest, env.login = TResult.resp 400 b :: lRest →
      (_authenticate file env).result = .error (AuthErr.httpStatus 400) ∧
      (_authenticate file env).file = file) := by
  constructor
  · intro e h
    exact auth_error_file file env e h
  · intro b lRest hl
    obtain ⟨lg, dt⟩ := env
    simp only at hl
    subst hl
    exact ⟨rfl, rfl⟩

/-- C3: constructing the client with a readable cache file holding a
valid (nonempty) token performs no login call, holds that token, and
leaves the oracle untouched; with a missing or unparseable cache file it
performs exactly one login call, and the unparseable (corrupt) file is
recovered exactly like a cache-miss — construction produces the very
same outcome as with a missing file, never a startup crash from the
corrupt cache. -/
theorem init_cached_token_vs_cache_miss (env : Env) (t : String) (ht : t ≠ "") :
    ((__init__ (CacheFile.record (some t)) env).loginCalls = 0 ∧
     (__init__ (CacheFile.record (some t)) env).result =
       Except.ok { token := some t, file := CacheFile.record (some t),
                   authHeader := none } ∧
     (__init__ (CacheFile.record (some t)) env).env = env) ∧
    ((__init__ CacheFile.absent env).loginCalls = 1 ∧
     (__init__ CacheFile.unreadable env).loginCalls = 1 ∧
     (__init__ CacheFile.unreadable env).result =
       (__init__ CacheFile.absent env).result) := by
  have hke : t.isEmpty = false := by
    rw [Bool.eq_false_iff]
    exact fun h => ht ((String.isEmpty_iff t).mp h)
  refine ⟨⟨?_, ?_, ?_⟩, ?_, ?_, ?_⟩
  · simp [__init__, _load_token, tokenTruthy, hke]
  · simp [__init__, _load_token, tokenTruthy, hke]
  · simp [__init__, _load_token, tokenTruthy, hke]
  · unfold __init__
    rw [if_neg (by decide)]
    dsimp only
    split <;> rfl
  · unfold __init__
    rw [if_neg (by decide)]
    dsimp only
    split <;> rfl
  · cases har : (_authenticate CacheFile.absent env).result with
    | error e =>
      have har2 : (_authenticate CacheFile.unreadable env).result = Except.error e :=
        (auth_result_indep CacheFile.unreadable CacheFile.absent env).trans har
      simp [__init__, _load_token, tokenTruthy, har, har2]
    | ok t' =>
      have har2 : (_authenticate CacheFile.unreadable env).result = Except.ok t' :=
        (auth_result_indep CacheFile.unreadable CacheFile.absent env).trans har
      have hf1 := auth_ok_file CacheFile.absent env t' har
      have hf2 := auth_ok_file CacheFile.unreadable env t' har2
      simp [__init__, _load_token, tokenTruthy, har, har2, hf1, hf2]

/-- C1: any run of `get` makes at most one login call, whatever the
state, oracle and retry flag (the retried call runs with the flag false
by construction of `APIClient.get`, so its refresh branch is dead); and
when both the first and the retried dispatch return 401 with a
successful refresh in between, `get` terminates with the `None` failure
result after exactly one refresh cycle: one login call and exactly two
data dispatches. -/
theorem get_at_most_one_reauth (st : ClientState) (env : Env) (retry : Bool) :
    (APIClient.get st env retry).loginCalls ≤ 1 ∧
    (∀ b1 b2 k dRest lRest,
      env.data = TResult.resp 401 b1 :: TResult.resp 401 b2 :: dRest →
      env.login = TResult.resp 200 (Json.obj [("key", Json.str k)]) :: lRest →
      k ≠ "" →
      (APIClient.get st env true).result = Except.ok none ∧
      (APIClient.get st env true).loginCalls = 1 ∧
      (APIClient.get st env true).dataCalls = 2) := by
  constructor
  · obtain ⟨lg, dt⟩ := env
    cases dt with
    | nil => exact Nat.zero_le 1
    | cons r rest =>
      cases r with
      | exn => exact Nat.zero_le 1
      | resp s b =>
        by_cases hc : s = 401 ∧ retry = true
        · simp only [APIClient.get, getBody, pop]
          rw [if_pos hc]
          split
          · split <;> simp [auth_loginCalls]
          · simp only [auth_loginCalls]
            simp
            split
            · rfl
            · split <;> rfl
        · simp only [APIClient.get, getBody, pop]
          rw [if_neg hc]
          split <;> simp
  · intro b1 b2 k dRest lRest hd hl hk
    have hke : k.isEmpty = false := by
      rw [Bool.eq_false_iff]
      exact fun h => hk ((String.isEmpty_iff k).mp h)
    have h200 : raisesForStatus 200 = false := by decide
    have h401 : raisesForStatus 401 = true := by decide
    refine ⟨?_, ?_, ?_⟩ <;>
      simp [APIClient.get, getBody, pop, hd, hl, hke, h200, h401, _authenticate,
        _save_token, _delete_token, _update_headers, Json.getField, lookupField]

/-- Witness for C1 at a concrete run: 401 twice, refresh succeeds. -/
theorem get_at_most_one_reauth_witness :
    (APIClient.get stOld envC1 true).result = Except.ok none ∧
    (APIClient.get stOld envC1 true).loginCalls = 1 ∧
    (APIClient.get stOld envC1 true).dataCalls = 2 :=
  (get_at_most_one_reauth stOld envC1 true).2 emptyBody emptyBody "tok-new" [] []
    rfl rfl (by decide)

/-- Witness for C2 at a concrete run: 401 then 200 with the paginated
empty body. -/
theorem get_401_then_success_refreshes_witness :
    (APIClient.get stOld envC2 true).result = Except.ok (some dataOk) ∧
    (APIClient.get stOld envC2 true).st.token = some "tok-new" ∧
    (APIClient.get stOld envC2 true).st.file = CacheFile.record (some "tok-new") ∧
    (APIClient.get stOld envC2 true).st.authHeader = some ("Token " ++ "tok-new") ∧
    (APIClient.get stOld envC2 true).loginCalls = 1 ∧
    (APIClient.get stOld envC2 true).dataCalls = 2 :=
  get_401_then_success_refreshes stOld envC2 emptyBody dataOk 200 "tok-new" [] []
    rfl (by decide) rfl (by decide)

/-- Witness for C3 at the concrete token `"tok-old"`. -/
theorem init_cached_token_vs_cache_miss_witness :
    ((__init__ (CacheFile.record (some "tok-old")) envLoginOk).loginCalls = 0 ∧
     (__init__ (CacheFile.record (some "tok-old")) envLoginOk).result =
       Except.ok { token := some "tok-old",
                   file := CacheFile.record (some "tok-old"),
                   authHeader := none } ∧
     (__init__ (CacheFile.record (some "tok-old")) envLoginOk).env = envLoginOk) ∧
    ((__init__ CacheFile.absent envLoginOk).loginCalls = 1 ∧
     (__init__ CacheFile.unreadable envLoginOk).loginCalls = 1 ∧
     (__init__ CacheFile.unreadable envLoginOk).result =
       (__init__ CacheFile.absent envLoginOk).result) :=
  init_cached_token_vs_cache_miss envLoginOk "tok-old" (by decide)

/-- Witness for C4 at a concrete 400 login response. -/
theorem authenticate_failure_persists_nothing_witness :
    (_authenticate (CacheFile.record (some "tok-old")) envLogin400).file =
      CacheFile.record (some "tok-old") ∧
    (_authenticate (CacheFile.record (some "tok-old")) envLogin400).result =
      Except.error (AuthErr.httpStatus 400) :=
  ⟨(authenticate_failure_persists_nothing (CacheFile.record (some "tok-old"))
        envLogin400).1 (AuthErr.httpStatus 400)
      ((authenticate_failure_persists_nothing (CacheFile.record (some "tok-old"))
          envLogin400).2 Json.null [] rfl).1,
    ((authenticate_failure_persists_nothing (CacheFile.record (some "tok-old"))
        envLogin400).2 Json.null [] rfl).1⟩

/-- Witness for C5 at a concrete transport failure and a concrete 500. -/
theorem get_non401_failures_terminal_witness :
    ((APIClient.get stOld envExn true).result = Except.ok none ∧
     (APIClient.get stOld envExn true).dataCalls = 1 ∧
     (APIClient.get stOld envExn true).loginCalls = 0 ∧
     (APIClient.get stOld envExn true).logs = [LogEntry.getTransportError]) ∧
    ((APIClient.get stOld env500 true).result = Except.ok none ∧
     (APIClient.get stOld env500 true).dataCalls = 1 ∧
     (APIClient.get stOld env500 true).loginCalls = 0 ∧
     (APIClient.get stOld env500 true).logs = [LogEntry.getHttpError 500 emptyBody]) :=
  ⟨(get_non401_failures_terminal stOld envExn true).1 [] rfl,
   (get_non401_failures_terminal stOld env500 true).2 500 emptyBody [] rfl
     (by decide) (by decide)⟩

/-- Witness for C8 at a concrete run: 401, then a 200 login whose body
has no key. -/
theorem get_refresh_missing_key_uncaught_witness :
    (APIClient.get stOld envC8 true).result = Except.error AuthErr.tokenNotFound ∧
    (APIClient.get stOld envC8 true).logs = [] :=
  get_refresh_missing_key_uncaught stOld envC8 emptyBody emptyBody 200 [] []
    rfl rfl (by decide) rfl

/-- Witness for C9 at a concrete run: 401, then a transport failure on
the refresh login. -/
theorem get_refresh_auth_failure_not_atomic_witness :
    (APIClient.get stOld envC9 true).result = Except.ok none ∧
    (APIClient.get stOld envC9 true).st.file = CacheFile.absent ∧
    (APIClient.get stOld envC9 true).st.token = stOld.token ∧
    (APIClient.get stOld envC9 true).logs =
      [LogEntry.getAuthError AuthErr.transport] :=
  (get_refresh_auth_failure_not_atomic stOld envC9 emptyBody [] rfl).1 [] rfl
